import Mathlib

/-!
Verification of the FiNN-AI staged RAG pipeline (spec.md) against the source:
  src/backend/services/rag_service.py  (the revised pipeline: RAGService)
  src/app/services/rag_service.py      (the first pipeline variant)
  src/app/database.py                  (similarity search helper)

The pipeline's external capabilities (OpenAI text generation, OpenAI
embeddings, FinBERT classification, and the floating-point cosine kernel
inside the similarity search) are modelled as function parameters: all
theorems hold for every choice of these oracles.  Everything else is a
direct shallow embedding of the Python source.
-/

namespace FiNN

/-! ## Python string primitives -/

/-- Character-wise lowercasing: model of Python `str.lower()`. -/
def pyLower (s : String) : String := ⟨s.data.map Char.toLower⟩

/-- Cut a character list at every separator, keeping empty pieces
(the helper behind `pySplit`). -/
def splitChars (p : Char → Bool) : List Char → List (List Char)
  | [] => [[]]
  | c :: cs =>
    match splitChars p cs with
    | [] => []
    | w :: ws => if p c then [] :: w :: ws else (c :: w) :: ws

/-- Model of Python `str.split()` with no argument: split on whitespace
runs, discarding empty pieces. -/
def pySplit (s : String) : List String :=
  ((splitChars Char.isWhitespace s.data).map (fun l => (⟨l⟩ : String))).filter
    (fun w => w ≠ "")

/-- Model of Python slicing `s[:n]` (by code point). -/
def pySlice (s : String) (n : Nat) : String := ⟨s.data.take n⟩

/-- Model of Python substring containment `needle in hay`. -/
def pyInStr (needle hay : String) : Bool := decide (needle.data <:+: hay.data)

/-- Truthiness of an optional string value, as Python sees a `dict.get`
result: `None` and the empty string are falsy. -/
def pyTruthy : Option String → Bool
  | some s => s ≠ ""
  | none => false

/-- Model of the Python idiom `a or b` where `a` is a `dict.get` result
(possibly absent) and `b` a string: returns `a`'s value when truthy,
otherwise `b`. -/
def pyOrStr (a : Option String) (b : String) : String :=
  if pyTruthy a then a.getD "" else b

/-- Numeric value of a digit string, as Python `int()` reads the group
captured by the citation pattern. -/
def digitsVal (ds : List Char) : Nat :=
  ds.foldl (fun acc c => acc * 10 + (c.toNat - '0'.toNat)) 0

/-! ## Documents and agent state

A retrieved document is a Python dict with optional string entries; absent
keys are `none`.  `similarity` carries the similarity score attached at
hydration time. -/

structure PyDoc where
  title : Option String := none
  term : Option String := none
  content : Option String := none
  definition : Option String := none
  source : Option String := none
  platform : Option String := none
  url : Option String := none
  date : Option String := none
  similarity : Option ℚ := none
deriving DecidableEq

/-- The hydration result for a similarity hit whose backing record has
vanished: the Python code returns the empty dict `{}`. -/
def emptyPyDoc : PyDoc := {}

/-- One entry of `state["sentiment_analysis"]`
(src/backend/services/rag_service.py, `_sentiment_analysis_node`). -/
structure SentimentEntry where
  title : String
  sentiment : String
  content_sentiment : String
  market_impact : String
  source : String
  date : String
deriving DecidableEq

/-- The `AgentState` TypedDict threading data between pipeline stages.
`context_data` is declared in the TypedDict but the backend entry point
never populates it, hence `Option`. -/
structure AgentState where
  question : String
  task_list : String
  context_data : Option String
  sentiment_analysis : List SentimentEntry
  final_response : String
  source_docs : List PyDoc
  terms_data : List PyDoc
deriving DecidableEq

/-- Fresh state built by the backend `process_question`
(src/backend/services/rag_service.py lines 312-319); `context_data` is
not assigned there. -/
def initState (q : String) : AgentState :=
  { question := q, task_list := "", context_data := none,
    sentiment_analysis := [], final_response := "",
    source_docs := [], terms_data := [] }

/-! ## `_format_docs` (src/backend/services/rag_service.py lines 86-98) -/

/-- One formatted context block,
`f"[{i}] {title}\nSource: {source}  Date: {date}\n{content}\n"`. -/
def formatBlock (i : Nat) (d : PyDoc) : String :=
  let title := pyOrStr d.title (d.term.getD "Untitled")
  let source := pyOrStr d.source (d.platform.getD "Source?")
  let date := d.date.getD ""
  let content := pySlice (pyOrStr d.content (d.definition.getD "")) 600
  "[" ++ toString i ++ "] " ++ title ++ "\nSource: " ++ source ++
    "  Date: " ++ date ++ "\n" ++ content ++ "\n"

/-- `RAGService._format_docs`: "None" on an empty list, otherwise the
blocks of the docs numbered from 1 (`enumerate(docs, 1)`), joined by
newlines. -/
def formatDocs (docs : List PyDoc) : String :=
  if docs = [] then "None"
  else String.intercalate "\n" ((docs.enumFrom 1).map (fun p => formatBlock p.1 p.2))

/-! ## Citation scanning (src/backend/services/rag_service.py lines 256-260)

`re.findall(r'\[(\d+)\]', final_answer)` scans left to right; since every
match of this pattern contains exactly one opening bracket (its first
character), matches can never overlap, so findall returns exactly the
values of the maximal digit runs that are enclosed as `[digits]`.  The
one-pass scan below emits, at every position, the value of a full match
starting there. -/

def findCitations : List Char → List Nat
  | [] => []
  | c :: cs =>
    (if c = '[' ∧ cs.takeWhile Char.isDigit ≠ [] ∧
        (cs.dropWhile Char.isDigit).head? = some ']'
     then [digitsVal (cs.takeWhile Char.isDigit)] else [])
    ++ findCitations cs

/-- Spec-side reading of "the number `n` literally appears as a bracketed
number `[n]` in the answer text": some occurrence of `[` followed by a
nonempty digit run of value `n` and a closing `]`. -/
def CitedIn (s : List Char) (n : Nat) : Prop :=
  ∃ l₁ ds l₂, s = l₁ ++ '[' :: (ds ++ ']' :: l₂) ∧ ds ≠ [] ∧
    (∀ c ∈ ds, c.isDigit = true) ∧ digitsVal ds = n

/-! ## Source list construction (src/backend/services/rag_service.py lines 262-271) -/

/-- One rendered source line `f"[{idx}] {title} ({url})"`. -/
def renderSource (i : Nat) (d : PyDoc) : String :=
  let title := pyOrStr d.title (d.term.getD "Untitled")
  let url := d.url.getD "#"
  "[" ++ toString i ++ "] " ++ title ++ " (" ++ url ++ ")"

/-- The `numbered_sources` loop: enumerate `source_docs + terms_data`
from 1 and keep a rendered line exactly for the cited positions. -/
def numberedSources (source_docs terms_data : List PyDoc) (final_answer : String) :
    List String :=
  let cited := findCitations final_answer.data
  ((source_docs ++ terms_data).enumFrom 1).filterMap
    (fun p => if p.1 ∈ cited then some (renderSource p.1 p.2) else none)

/-! ## Stored records

Row shapes follow the ORM models.  `NewsRow`/`SocialRow` follow
src/app/database.py (NewsArticle, SocialMediaPost); `InvestingRow` and
`InvestopediaRow` carry the fields the backend hydration reads
(`row.title`, `row.content`, `row.url`, `row.published`) — their ORM
module `backend.core.database` is not under src.  Embeddings are optional
vectors; the numeric payload type is ℚ (the float values only ever flow
through the abstracted cosine kernel). -/

structure NewsRow where
  id : Nat
  title : String
  content : String
  date : String
  source : String
  url : String
  embedding : Option (List ℚ)
deriving DecidableEq

structure SocialRow where
  id : Nat
  platform : String
  user : String
  date : String
  content : String
  url : String
  embedding : Option (List ℚ)
deriving DecidableEq

structure FinancialTermRow where
  id : Nat
  term : String
  definition : String
  url : String
  embedding : Option (List ℚ)
deriving DecidableEq

structure InvestingRow where
  id : Nat
  title : String
  content : String
  url : String
  published : String
  embedding : Option (List ℚ)
deriving DecidableEq

structure InvestopediaRow where
  id : Nat
  title : String
  content : String
  url : String
  embedding : Option (List ℚ)
deriving DecidableEq

/-- The typed collections of the backend document store, one per ORM
model queried by the pipeline. -/
structure BackendStore where
  newsArticles : List NewsRow
  socialPosts : List SocialRow
  investingCom : List InvestingRow
  investopedia : List InvestopediaRow
deriving DecidableEq

/-- A raw similarity-search hit `{id, url, similarity}` (pre-hydration). -/
structure Hit where
  id : Nat
  url : String
  similarity : ℚ
deriving DecidableEq

/-! ## Similarity search

`search_by_embedding` in src/app/database.py: keep the rows that have a
stored embedding, score each against the query, sort by score descending
(Python `sorted(..., key=lambda x: x[0], reverse=True)`), truncate to
`limit` and convert to result dicts.  Python's sort is stable, and a
stable sort's output is determined by the key order alone, so it is
modelled by the stable `List.insertionSort` under the descending
comparison `fun a b => b.1 ≤ a.1` (ties keep input order in both).  The
numpy cosine kernel `np.dot(q,e)/(norm(q)*norm(e))` is floating-point and
is abstracted as the `cosine` parameter; every theorem below holds for
each such kernel. -/

/-- A record handed to the src/app `search_by_embedding`, which branches
on the record's runtime class to decide which fields to expose. -/
inductive AppRecord
  | news (row : NewsRow)
  | social (row : SocialRow)
  | term (row : FinancialTermRow)
deriving DecidableEq

def AppRecord.embedding : AppRecord → Option (List ℚ)
  | news r => r.embedding
  | social r => r.embedding
  | term r => r.embedding

/-- The descending comparison `sorted(..., key=lambda x: x[0], reverse=True)`
applies to `(similarity, item)` pairs: `a` comes no later than `b` when
`b`'s score is at most `a`'s. -/
def simOrder {α : Type} (a b : ℚ × α) : Prop := b.1 ≤ a.1

instance {α : Type} : DecidableRel (@simOrder α) :=
  fun a b => inferInstanceAs (Decidable (b.1 ≤ a.1))

instance {α : Type} : IsTotal (ℚ × α) simOrder :=
  ⟨fun a b => le_total b.1 a.1⟩

instance {α : Type} : IsTrans (ℚ × α) simOrder :=
  ⟨fun _ _ _ h1 h2 => le_trans h2 h1⟩

/-- A result dict of src/app `search_by_embedding`: the base keys
`{id, url, similarity}` plus the class-specific display fields. -/
structure AppResult where
  id : Nat
  url : String
  similarity : ℚ
  title : Option String := none
  content : Option String := none
  source : Option String := none
  date : Option String := none
  platform : Option String := none
  term : Option String := none
  definition : Option String := none
deriving DecidableEq

/-- The `isinstance` dispatch building `item_dict`
(src/app/database.py lines 95-121). -/
def AppRecord.toResult : AppRecord → ℚ → AppResult
  | news r, s =>
    { id := r.id, url := r.url, similarity := s, title := some r.title,
      content := some r.content, source := some r.source, date := some r.date }
  | social r, s =>
    { id := r.id, url := r.url, similarity := s, platform := some r.platform,
      content := some r.content, date := some r.date }
  | term r, s =>
    { id := r.id, url := r.url, similarity := s, term := some r.term,
      definition := some r.definition }

/-- `search_by_embedding` (src/app/database.py lines 74-123). -/
def search_by_embedding (cosine : List ℚ → List ℚ → ℚ) (query : List ℚ)
    (items : List AppRecord) (limit : Nat) : List AppResult :=
  let withEmb := items.filter (fun it => it.embedding.isSome)
  let similarities := withEmb.map (fun it => (cosine query (it.embedding.getD []), it))
  let sorted_items := List.insertionSort simOrder similarities
  (sorted_items.take limit).map (fun p => p.2.toResult p.1)

/-- Modelled from the spec: `backend.core.database.search_by_embedding`
restricted to the `InvestingCom` table (the module is absent from src;
spec §2/§6: "scores stored embeddings by cosine similarity and returns
the top-K matches with their similarity score", within one record type,
sorted descending). -/
def searchInvesting (cosine : List ℚ → List ℚ → ℚ) (query : List ℚ)
    (rows : List InvestingRow) (limit : Nat) : List Hit :=
  let withEmb := rows.filter (fun r => r.embedding.isSome)
  let sims := withEmb.map (fun r => (cosine query (r.embedding.getD []), r))
  (((List.insertionSort simOrder sims).take limit)).map
    (fun p => { id := p.2.id, url := p.2.url, similarity := p.1 })

/-- Modelled from the spec: `backend.core.database.search_by_embedding`
restricted to the `InvestopediaDict` table (see `searchInvesting`). -/
def searchInvestopedia (cosine : List ℚ → List ℚ → ℚ) (query : List ℚ)
    (rows : List InvestopediaRow) (limit : Nat) : List Hit :=
  let withEmb := rows.filter (fun r => r.embedding.isSome)
  let sims := withEmb.map (fun r => (cosine query (r.embedding.getD []), r))
  (((List.insertionSort simOrder sims).take limit)).map
    (fun p => { id := p.2.id, url := p.2.url, similarity := p.1 })

/-! ## Hydration (src/backend/services/rag_service.py lines 113-135) -/

/-- Modelled from the spec: the document store's `find_by_id`
(`db.query(Model).get(id)`, module `backend.core.database` absent from
src) — primary-key lookup returning the record or nothing. -/
def lookupInvesting (rows : List InvestingRow) (i : Nat) : Option InvestingRow :=
  rows.find? (fun r => r.id == i)

/-- Modelled from the spec: `find_by_id` on the Investopedia table. -/
def lookupInvestopedia (rows : List InvestopediaRow) (i : Nat) : Option InvestopediaRow :=
  rows.find? (fun r => r.id == i)

/-- The display document built from an existing `InvestingCom` row. -/
def investingDocOf (row : InvestingRow) (sim : ℚ) : PyDoc :=
  { title := some row.title, content := some row.content,
    source := some "Investing.com", url := some row.url,
    date := some row.published, similarity := some sim }

/-- The display document built from an existing `InvestopediaDict` row. -/
def investopediaDocOf (row : InvestopediaRow) (sim : ℚ) : PyDoc :=
  { term := some row.title, definition := some row.content,
    url := some row.url, similarity := some sim }

/-- `RAGService._as_dict_investing`: empty dict when the backing row is
gone, otherwise the display document. -/
def as_dict_investing (rows : List InvestingRow) (hit : Hit) : PyDoc :=
  match lookupInvesting rows hit.id with
  | none => emptyPyDoc
  | some row => investingDocOf row hit.similarity

/-- `RAGService._as_dict_investopedia`. -/
def as_dict_investopedia (rows : List InvestopediaRow) (hit : Hit) : PyDoc :=
  match lookupInvestopedia rows hit.id with
  | none => emptyPyDoc
  | some row => investopediaDocOf row hit.similarity

/-! ## Keyword filter and context retrieval
(src/backend/services/rag_service.py lines 140-168) -/

/-- `kwords = [w.lower() for w in state["question"].split() if len(w) > 2]`. -/
def kwords (question : String) : List String :=
  ((pySplit question).filter (fun w => decide (2 < w.length))).map pyLower

/-- The searchable blob of one document,
`f"{d.get('title','')} {d.get('content','')} {d.get('definition','')}".lower()`. -/
def blobOf (d : PyDoc) : String :=
  pyLower (d.title.getD "" ++ " " ++ d.content.getD "" ++ " " ++ d.definition.getD "")

/-- `kw_filter`: keep the docs whose blob mentions at least one keyword. -/
def kw_filter (kws : List String) (docs : List PyDoc) : List PyDoc :=
  docs.filter (fun d => kws.any (fun k => pyInStr k (blobOf d)))

/-- `RAGService._context_retrieval_node`: embed the question, run one
similarity search per record-type group (limit 25), hydrate, keyword
filter, store the two lists. -/
def context_retrieval_node (embedQuery : String → List ℚ)
    (cosine : List ℚ → List ℚ → ℚ) (db : BackendStore)
    (state : AgentState) : AgentState :=
  let q_emb := embedQuery state.question
  let kws := kwords state.question
  let raw_news := searchInvesting cosine q_emb db.investingCom 25
  let raw_defs := searchInvestopedia cosine q_emb db.investopedia 25
  let news_docs := raw_news.map (as_dict_investing db.investingCom)
  let def_docs := raw_defs.map (as_dict_investopedia db.investopedia)
  { state with
    source_docs := kw_filter kws news_docs,
    terms_data := kw_filter kws def_docs }

/-! ## Task assignment (src/backend/services/rag_service.py lines 103-108) -/

def taskPrompt (q : String) : String :=
  "Break the financial question into 2-3 concise tasks.\n\nQuestion: " ++ q

/-- `RAGService._task_assignment_node`; the LLM is the `llm` oracle. -/
def task_assignment_node (llm : String → String) (state : AgentState) : AgentState :=
  { state with task_list := llm (taskPrompt state.question) }

/-! ## Sentiment analysis (src/backend/services/rag_service.py lines 170-200) -/

/-- `RAGService._sentiment_analysis_node`; FinBERT is the `finbert`
oracle (text to label-with-score string). -/
def sentiment_analysis_node (finbert : String → String) (state : AgentState) :
    AgentState :=
  let results := state.source_docs.filterMap (fun d =>
    if pyTruthy d.title then
      let sent := finbert (d.title.getD "")
      let content_sentiment :=
        if pyTruthy d.content then
          "Content: " ++ finbert (pySlice (d.content.getD "") 100 ++ "...")
        else ""
      let impact :=
        if pyInStr "positive" sent then "potentially positive"
        else if pyInStr "negative" sent then "potentially negative"
        else "neutral"
      some { title := d.title.getD "", sentiment := sent,
             content_sentiment := content_sentiment, market_impact := impact,
             source := d.source.getD "Unknown", date := d.date.getD "Unknown" }
    else none)
  { state with sentiment_analysis := results }

/-! ## Response generation (src/backend/services/rag_service.py lines 205-277) -/

/-- The zero-context prompt, built from the question alone. -/
def zeroContextPrompt (q : String) : String :=
  "\nYou are a helpful financial assistant. Answer the question from your own knowledge.\n\nQuestion: " ++ q ++ "\n"

/-- The grounded prompt: fixed instruction template with the question and
the two formatted context blocks substituted. -/
def groundedPrompt (q docs terms : String) : String :=
  "\nSYSTEM:\nYou are a financial advisor assistant who specializes in providing accurate, up-to-date information about financial markets, investments, and economic topics.\n\nGUIDELINES:\n1. Use the Context information whenever possible and cite sources with [n] notation.\n2. Include ONLY factual information from the provided context.\n3. When citing, use the exact number from the context (e.g., [1], [2]) at the end of sentences that use that information.\n4. If the Context is insufficient, you may supplement with your general knowledge but clearly mark these additions with \"(general knowledge)\".\n5. Prioritize recent news over older information.\n6. Provide balanced perspectives when there are conflicting viewpoints.\n7. For financial terms, use definitions from Investopedia when available.\n8. When explaining complex concepts, break them down into simple terms.\n\nUSER QUESTION:\n" ++ q ++ "\n\n=== Context: News & Social ===\n" ++ docs ++ "\n\n=== Context: Investopedia ===\n" ++ terms ++ "\n"

/-- The grounded-path final response: generated answer, stripped, plus
the (possibly empty, stripped) sources block. -/
def groundedResponse (llm : String → String) (state : AgentState) : String :=
  let docs_txt := formatDocs state.source_docs
  let terms_txt := formatDocs state.terms_data
  let final_answer := llm (groundedPrompt state.question docs_txt terms_txt)
  let numbered := numberedSources state.source_docs state.terms_data final_answer
  let sources_text :=
    if numbered ≠ [] then "\n\nSources:\n" ++ String.intercalate "\n" numbered
    else ""
  final_answer.trim ++ "\n\n" ++ sources_text.trim

/-- `RAGService._response_generation_node`: zero-context fallback iff both
retrieved lists are empty, otherwise the grounded path. -/
def response_generation_node (llm : String → String) (state : AgentState) :
    AgentState :=
  if state.source_docs = [] ∧ state.terms_data = [] then
    { state with final_response := llm (zeroContextPrompt state.question) }
  else
    { state with final_response := groundedResponse llm state }

/-! ## The backend pipeline (src/backend/services/rag_service.py lines 311-327) -/

/-- `RAGService.process_question` of the backend variant: the four stage
functions applied sequentially to a fresh state; no exception handler. -/
def process_question (llm : String → String) (embedQuery : String → List ℚ)
    (cosine : List ℚ → List ℚ → ℚ) (finbert : String → String)
    (db : BackendStore) (question : String) : String :=
  let s1 := task_assignment_node llm (initState question)
  let s2 := context_retrieval_node embedQuery cosine db s1
  let s3 := sentiment_analysis_node finbert s2
  let s4 := response_generation_node llm s3
  s4.final_response

/-! ## Exception propagation model for the two `process_question` variants

Python exceptions are modelled with `Except String`: a stage either
returns the updated state or raises with an error message.  The stage
bodies are abstract here — only the control structure of the two entry
points is at stake. -/

/-- The four pipeline stages run in sequence, each feeding the next; the
first raising stage aborts the rest (Python exception propagation through
straight-line code). -/
def runStages (t r s c : AgentState → Except String AgentState)
    (st : AgentState) : Except String AgentState :=
  (t st).bind fun st1 => (r st1).bind fun st2 => (s st2).bind fun st3 => c st3

/-- Backend `process_question`
(src/backend/services/rag_service.py lines 311-327): the stage sequence
has no surrounding try/except, so a stage exception propagates to the
caller. -/
def process_question_backendE (t r s c : AgentState → Except String AgentState)
    (question : String) : Except String String :=
  (runStages t r s c (initState question)).map (fun st => st.final_response)

/-- Fresh state built by the app `process_question`
(src/app/services/rag_service.py lines 284-292); unlike the backend it
assigns `context_data=""`. -/
def initStateApp (q : String) : AgentState :=
  { question := q, task_list := "", context_data := some "",
    sentiment_analysis := [], final_response := "",
    source_docs := [], terms_data := [] }

/-- The fixed user-facing apology text of the app variant's catch-all. -/
def apologyPrefix : String :=
  "I'm sorry, I encountered an error while processing your question. Please try again with a different query related to finance. Error details: "

/-- App `process_question` (src/app/services/rag_service.py lines
278-317): the stage sequence is wrapped in `try/except Exception as e`,
returning the apology string with `str(e)[:100]` appended. -/
def process_question_appE (t r s c : AgentState → Except String AgentState)
    (question : String) : String :=
  match runStages t r s c (initStateApp question) with
  | .ok st => st.final_response
  | .error e => apologyPrefix ++ pySlice e 100 ++ "..."

/-! ## Concrete instances used to evaluate the development -/

/-- A source document (n = 1 general document). -/
def exNewsDoc : PyDoc :=
  { title := some "Doc One", content := some "alpha", source := some "Investing.com",
    url := some "http://e.com/1", date := some "2024-01-01", similarity := some 1 }

/-- A glossary document (the single `terms_data` entry). -/
def exTermDoc : PyDoc :=
  { term := some "Stock", definition := some "ownership", url := some "http://e.com/s",
    similarity := some 1 }

/-- A stage that raises (`Exception("OpenAI API connection refused")`). -/
def failingTaskStage : AgentState → Except String AgentState :=
  fun _ => .error "OpenAI API connection refused"

/-- A stage that completes without touching the state. -/
def okStage : AgentState → Except String AgentState := fun st => .ok st

/-- A news record whose text matches the question keywords below. -/
def exNewsRow : NewsRow :=
  { id := 1, title := "Apple stock rises", content := "Apple shares climbed today",
    date := "2024-05-01", source := "CNBC", url := "http://n.com/a",
    embedding := some [1] }

/-- A store holding only that news record. -/
def exNewsOnlyStore : BackendStore :=
  { newsArticles := [exNewsRow], socialPosts := [], investingCom := [],
    investopedia := [] }

/-- An Investing.com record whose text matches the question keywords below. -/
def exInvestingRow : InvestingRow :=
  { id := 1, title := "Tesla stock soars", content := "shares rallied",
    url := "http://i.com/t", published := "2024", embedding := some [1] }

/-- A store holding only that Investing.com record. -/
def exInvestingStore : BackendStore :=
  { newsArticles := [], socialPosts := [], investingCom := [exInvestingRow],
    investopedia := [] }

/-- A constant embedding oracle. -/
def exEmbed : String → List ℚ := fun _ => [1]

/-- A constant cosine kernel. -/
def exCosine : List ℚ → List ℚ → ℚ := fun _ _ => 1

/-! ## Helper lemmas -/

theorem length_pyLower (s : String) : (pyLower s).length = s.length := by
  show (s.data.map Char.toLower).length = s.data.length
  rw [List.length_map]

theorem mem_kwords_length {q k : String} (h : k ∈ kwords q) : 2 < k.length := by
  rw [kwords, List.mem_map] at h
  obtain ⟨w, hw, rfl⟩ := h
  rw [List.mem_filter, decide_eq_true_eq] at hw
  rw [length_pyLower]
  exact hw.2

/-- The keyword filter can never keep the empty dict a vanished record
hydrates to: its searchable blob is the two-space string, and every
keyword has more than two characters. -/
theorem not_mem_kw_filter_empty (q : String) (docs : List PyDoc) :
    emptyPyDoc ∉ kw_filter (kwords q) docs := by
  intro hmem
  rw [kw_filter, List.mem_filter] at hmem
  obtain ⟨-, hany⟩ := hmem
  rw [List.any_eq_true] at hany
  obtain ⟨k, hk, hin⟩ := hany
  rw [pyInStr, decide_eq_true_eq] at hin
  have hlen := hin.length_le
  have hk2 : 2 < k.length := mem_kwords_length hk
  have hblob : (blobOf emptyPyDoc).data.length = 2 := rfl
  have : k.data.length = k.length := rfl
  omega

/-! ## C6: keyword-filter soundness -/

/-- C6: with the keyword set being the lowercased whitespace-delimited
tokens of the question of length > 2 (no stopword removal), a document
survives `kw_filter` exactly when it was in the input and at least one
keyword occurs as a substring of the lowercased concatenation of its
title, content, and definition fields; a document matching no keyword is
removed. -/
theorem keyword_filter_soundness (question : String) (docs : List PyDoc) :
    (∀ d, d ∈ kw_filter (kwords question) docs ↔
      d ∈ docs ∧ ∃ k ∈ kwords question,
        k.data <:+: (pyLower (d.title.getD "" ++ " " ++ d.content.getD "" ++ " " ++
          d.definition.getD "")).data)
    ∧ (∀ k, k ∈ kwords question ↔
      ∃ w, w ∈ pySplit question ∧ 2 < w.length ∧ k = pyLower w) := by
  constructor
  · intro d
    rw [kw_filter, List.mem_filter, List.any_eq_true]
    simp only [pyInStr, decide_eq_true_eq, blobOf]
  · intro k
    rw [kwords, List.mem_map]
    constructor
    · rintro ⟨w, hw, rfl⟩
      rw [List.mem_filter, decide_eq_true_eq] at hw
      exact ⟨w, hw.1, hw.2, rfl⟩
    · rintro ⟨w, hw, hlen, rfl⟩
      exact ⟨w, List.mem_filter.mpr ⟨hw, by simpa using hlen⟩, rfl⟩

/-! ## C4: zero-context path -/

/-- C4: the Answer Composer takes the zero-context fallback iff both
`source_docs` and `terms_data` are empty; on that path the final response
is exactly the text generated from the question-only prompt (no citation
scanning, no source list, no composer-added text); otherwise it takes the
grounded path. -/
theorem zero_context_path_iff (llm : String → String) (state : AgentState) :
    (state.source_docs = [] ∧ state.terms_data = [] →
      response_generation_node llm state
        = { state with final_response := llm (zeroContextPrompt state.question) })
    ∧ (¬(state.source_docs = [] ∧ state.terms_data = []) →
      response_generation_node llm state
        = { state with final_response := groundedResponse llm state }) := by
  constructor
  · intro h
    rw [response_generation_node, if_pos h]
  · intro h
    rw [response_generation_node, if_neg h]

/-- Witness for C4 at a concrete zero-context state. -/
theorem zero_context_path_iff_witness :
    response_generation_node (fun _ => "raw answer") (initState "q")
      = { initState "q" with final_response := "raw answer" } :=
  (zero_context_path_iff (fun _ => "raw answer") (initState "q")).1 ⟨rfl, rfl⟩

/-! ## C10: questions with only short tokens force the zero-context path -/

/-- C10: when no whitespace-delimited token of the question is longer
than two characters, the keyword set is empty, so retrieval returns two
empty lists for every document store and every oracle, and the composer
then takes the zero-context path. -/
theorem short_question_forces_zero_context
    (embedQuery : String → List ℚ) (cosine : List ℚ → List ℚ → ℚ)
    (llm : String → String) (db : BackendStore) (state : AgentState)
    (h : ∀ w ∈ pySplit state.question, w.length ≤ 2) :
    kwords state.question = []
    ∧ (context_retrieval_node embedQuery cosine db state).source_docs = []
    ∧ (context_retrieval_node embedQuery cosine db state).terms_data = []
    ∧ (response_generation_node llm
        (context_retrieval_node embedQuery cosine db state)).final_response
      = llm (zeroContextPrompt state.question) := by
  have hkw : kwords state.question = [] := by
    rw [kwords]
    have : (pySplit state.question).filter (fun w => decide (2 < w.length)) = [] := by
      rw [List.filter_eq_nil_iff]
      intro w hw
      have := h w hw
      simp only [decide_eq_true_eq]
      omega
    rw [this]
    rfl
  have hfilter : ∀ docs : List PyDoc, kw_filter (kwords state.question) docs = [] := by
    intro docs
    rw [hkw, kw_filter, List.filter_eq_nil_iff]
    intro d _
    simp [List.any_nil]
  refine ⟨hkw, hfilter _, hfilter _, ?_⟩
  rw [response_generation_node]
  rw [if_pos ⟨hfilter _, hfilter _⟩]
  rfl

/-- Witness for C10: the question "is it up" has only short tokens, so
even over a store holding a matching news record the pipeline answers
from the zero-context prompt. -/
theorem short_question_forces_zero_context_witness :
    (response_generation_node (fun _ => "from own knowledge")
      (context_retrieval_node exEmbed exCosine exNewsOnlyStore
        (initState "is it up"))).final_response = "from own knowledge" :=
  (short_question_forces_zero_context exEmbed exCosine (fun _ => "from own knowledge")
    exNewsOnlyStore (initState "is it up") (by decide)).2.2.2

/-! ## C9: stage order and frame invariant -/

/-- C9: in one backend `process_question` invocation the stages run in
the fixed order decompose, retrieve, sentiment, compose, and each stage
leaves every Agent State field except its own unchanged (decompose writes
only `task_list`; retrieve only `source_docs`/`terms_data`; sentiment
only `sentiment_analysis`; compose only `final_response`). -/
theorem stage_frame_invariant (llm finbert : String → String)
    (embedQuery : String → List ℚ) (cosine : List ℚ → List ℚ → ℚ)
    (db : BackendStore) (s : AgentState) (q : String) :
    ((task_assignment_node llm s).question = s.question
      ∧ (task_assignment_node llm s).context_data = s.context_data
      ∧ (task_assignment_node llm s).sentiment_analysis = s.sentiment_analysis
      ∧ (task_assignment_node llm s).final_response = s.final_response
      ∧ (task_assignment_node llm s).source_docs = s.source_docs
      ∧ (task_assignment_node llm s).terms_data = s.terms_data)
    ∧ ((context_retrieval_node embedQuery cosine db s).question = s.question
      ∧ (context_retrieval_node embedQuery cosine db s).task_list = s.task_list
      ∧ (context_retrieval_node embedQuery cosine db s).context_data = s.context_data
      ∧ (context_retrieval_node embedQuery cosine db s).sentiment_analysis
          = s.sentiment_analysis
      ∧ (context_retrieval_node embedQuery cosine db s).final_response
          = s.final_response)
    ∧ ((sentiment_analysis_node finbert s).question = s.question
      ∧ (sentiment_analysis_node finbert s).task_list = s.task_list
      ∧ (sentiment_analysis_node finbert s).context_data = s.context_data
      ∧ (sentiment_analysis_node finbert s).final_response = s.final_response
      ∧ (sentiment_analysis_node finbert s).source_docs = s.source_docs
      ∧ (sentiment_analysis_node finbert s).terms_data = s.terms_data)
    ∧ ((response_generation_node llm s).question = s.question
      ∧ (response_generation_node llm s).task_list = s.task_list
      ∧ (response_generation_node llm s).context_data = s.context_data
      ∧ (response_generation_node llm s).sentiment_analysis = s.sentiment_analysis
      ∧ (response_generation_node llm s).source_docs = s.source_docs
      ∧ (response_generation_node llm s).terms_data = s.terms_data)
    ∧ process_question llm embedQuery cosine finbert db q
        = (response_generation_node llm (sentiment_analysis_node finbert
            (context_retrieval_node embedQuery cosine db
              (task_assignment_node llm (initState q))))).final_response := by
  refine ⟨⟨rfl, rfl, rfl, rfl, rfl, rfl⟩, ⟨rfl, rfl, rfl, rfl, rfl⟩,
    ⟨rfl, rfl, rfl, rfl, rfl, rfl⟩, ?_, rfl⟩
  rw [response_generation_node]
  split <;> exact ⟨rfl, rfl, rfl, rfl, rfl, rfl⟩

/-! ## C5: hits whose backing record vanished are dropped -/

/-- C5: a similarity hit whose backing record id is no longer found at
hydration time hydrates to the empty dict, the empty dict never survives
the keyword filter, and consequently no ghost document (and in
particular no all-null document) ever appears in `source_docs` or
`terms_data`; the whole path is a total function, so no exception
escapes `retrieve`. -/
theorem ghost_hit_dropped (question : String)
    (rows : List InvestingRow) (irows : List InvestopediaRow)
    (hit ihit : Hit) (raw iraw : List Hit)
    (hgone : lookupInvesting rows hit.id = none)
    (higone : lookupInvestopedia irows ihit.id = none)
    (embedQuery : String → List ℚ) (cosine : List ℚ → List ℚ → ℚ)
    (db : BackendStore) (state : AgentState) :
    as_dict_investing rows hit = emptyPyDoc
    ∧ as_dict_investopedia irows ihit = emptyPyDoc
    ∧ emptyPyDoc ∉ kw_filter (kwords question) (raw.map (as_dict_investing rows))
    ∧ emptyPyDoc ∉ kw_filter (kwords question) (iraw.map (as_dict_investopedia irows))
    ∧ emptyPyDoc ∉ (context_retrieval_node embedQuery cosine db state).source_docs
    ∧ emptyPyDoc ∉ (context_retrieval_node embedQuery cosine db state).terms_data := by
  refine ⟨?_, ?_, not_mem_kw_filter_empty _ _, not_mem_kw_filter_empty _ _,
    not_mem_kw_filter_empty _ _, not_mem_kw_filter_empty _ _⟩
  · rw [as_dict_investing, hgone]
  · rw [as_dict_investopedia, higone]

/-- Witness for C5: a concrete stale hit against an empty store. -/
theorem ghost_hit_dropped_witness :
    as_dict_investing [] { id := 7, url := "http://e.com/x", similarity := 1 }
        = emptyPyDoc
    ∧ emptyPyDoc ∉ (context_retrieval_node exEmbed exCosine exInvestingStore
        (initState "Tesla stock")).source_docs := by
  have h := ghost_hit_dropped "Tesla stock" []
    [] { id := 7, url := "http://e.com/x", similarity := 1 }
    { id := 7, url := "http://e.com/x", similarity := 1 } [] []
    rfl rfl exEmbed exCosine exInvestingStore (initState "Tesla stock")
  exact ⟨h.1, h.2.2.2.2.1⟩

/-! ## C2: exception containment in `process_question` -/

/-- C2 counterexample: the backend `process_question`
(src/backend/services/rag_service.py lines 311-327) has no exception
handler, so a stage exception propagates to the caller instead of being
turned into the apology string. -/
theorem backend_process_question_propagates :
    process_question_backendE failingTaskStage okStage okStage okStage
      "What is a stock?" = .error "OpenAI API connection refused" := rfl

/-- C2 amended: the app variant's `process_question`
(src/app/services/rag_service.py lines 278-317) wraps the stage sequence
in a catch-all; whenever any stage raises it returns a non-empty string
beginning with the fixed apology prefix and carrying the error message
truncated to at most 100 characters. -/
theorem app_process_question_catchall
    (t r s c : AgentState → Except String AgentState) (q e : String)
    (h : runStages t r s c (initStateApp q) = .error e) :
    process_question_appE t r s c q = apologyPrefix ++ pySlice e 100 ++ "..."
    ∧ apologyPrefix.data <+: (process_question_appE t r s c q).data
    ∧ (pySlice e 100).length ≤ 100
    ∧ process_question_appE t r s c q ≠ "" := by
  have happ : process_question_appE t r s c q
      = apologyPrefix ++ pySlice e 100 ++ "..." := by
    rw [process_question_appE, h]
  refine ⟨happ, ?_, ?_, ?_⟩
  · rw [happ]
    exact ⟨(pySlice e 100).data ++ "...".data, by
      rw [String.data_append, String.data_append, List.append_assoc]⟩
  · show (e.data.take 100).length ≤ 100
    rw [List.length_take]
    omega
  · rw [happ]
    intro hcontra
    have : (apologyPrefix ++ pySlice e 100 ++ "...").data = ([] : List Char) := by
      rw [hcontra]
    rw [String.data_append, String.data_append] at this
    simp only [List.append_eq_nil] at this
    exact absurd this.1.1 (by decide)

/-- Witness for C2's amended statement at a concrete failing stage. -/
theorem app_process_question_catchall_witness :
    process_question_appE failingTaskStage okStage okStage okStage "What is a stock?"
      = apologyPrefix ++ pySlice "OpenAI API connection refused" 100 ++ "..." :=
  (app_process_question_catchall failingTaskStage okStage okStage okStage
    "What is a stock?" "OpenAI API connection refused" rfl).1

/-! ## C7: search results come out sorted; the filter preserves order -/

/-- The similarity field of a result dict is the score it was built from. -/
theorem similarity_toResult (rec : AppRecord) (s : ℚ) :
    (rec.toResult s).similarity = s := by
  cases rec <;> rfl

/-- C7: for every query vector, record collection and limit, the
(src/app) similarity search returns at most `limit` hits whose
similarity scores are in descending order, and the keyword filter is
order-preserving — each filtered list is a subsequence of its input —
so nothing re-ranks between search and the returned lists. -/
theorem search_sorted_and_filter_order_preserving
    (cosine : List ℚ → List ℚ → ℚ) (query : List ℚ)
    (items : List AppRecord) (limit : Nat)
    (kws : List String) (docs : List PyDoc) :
    (search_by_embedding cosine query items limit).length ≤ limit
    ∧ ((search_by_embedding cosine query items limit).map
        (fun r => r.similarity)).Pairwise (fun a b => b ≤ a)
    ∧ (kw_filter kws docs).Sublist docs := by
  refine ⟨?_, ?_, List.filter_sublist docs⟩
  · rw [search_by_embedding]
    simp only [List.length_map, List.length_take]
    omega
  · rw [search_by_embedding]
    have hsorted := List.sorted_insertionSort (@simOrder AppRecord)
      ((items.filter (fun it => it.embedding.isSome)).map
        (fun it => (cosine query (it.embedding.getD []), it)))
    have htake := hsorted.sublist (List.take_sublist limit _)
    rw [List.map_map]
    rw [List.pairwise_map]
    refine htake.imp ?_
    intro a b hab
    simp only [Function.comp_apply, similarity_toResult]
    exact hab

/-! ## C8: which record types the two searches cover -/

/-- C8 counterexample: the backend Context Retriever does not search news
records.  The store holds exactly one news record whose title and content
match the question keywords ("apple" occurs in its lowercased text), yet
`retrieve` returns two empty lists — under the claim, the general group
would cover the news record and its filtered hit would populate
`source_docs`. -/
theorem news_records_not_searched :
    exNewsOnlyStore.newsArticles ≠ []
    ∧ ("apple" ∈ kwords "Apple stock"
        ∧ pyInStr "apple" (pyLower (exNewsRow.title ++ " " ++ exNewsRow.content)) = true)
    ∧ (context_retrieval_node exEmbed exCosine exNewsOnlyStore
        (initState "Apple stock")).source_docs = []
    ∧ (context_retrieval_node exEmbed exCosine exNewsOnlyStore
        (initState "Apple stock")).terms_data = [] := by
  refine ⟨by decide, ⟨by decide, by decide⟩, rfl, rfl⟩

/-- C8 amended: the backend Context Retriever runs one similarity search
per group with K = 25, but the general group queries only the
aggregator-article (Investing.com) collection — news and social records
are never searched — and the definitional group queries only the
glossary (Investopedia) collection; the filtered general hits populate
`source_docs` (each surviving document hydrated from some Investing.com
row) and the filtered definitional hits populate `terms_data` (each from
some Investopedia row). -/
theorem retrieval_two_groups_amended (embedQuery : String → List ℚ)
    (cosine : List ℚ → List ℚ → ℚ) (db : BackendStore) (state : AgentState)
    (news : List NewsRow) (social : List SocialRow) :
    (searchInvesting cosine (embedQuery state.question) db.investingCom 25).length ≤ 25
    ∧ (searchInvestopedia cosine (embedQuery state.question) db.investopedia 25).length ≤ 25
    ∧ context_retrieval_node embedQuery cosine
        { db with newsArticles := news, socialPosts := social } state
      = context_retrieval_node embedQuery cosine db state
    ∧ (∀ d ∈ (context_retrieval_node embedQuery cosine db state).source_docs,
        ∃ row ∈ db.investingCom, ∃ sim : ℚ, d = investingDocOf row sim)
    ∧ (∀ d ∈ (context_retrieval_node embedQuery cosine db state).terms_data,
        ∃ row ∈ db.investopedia, ∃ sim : ℚ, d = investopediaDocOf row sim) := by
  refine ⟨?_, ?_, rfl, ?_, ?_⟩
  · rw [searchInvesting]
    simp only [List.length_map, List.length_take]
    omega
  · rw [searchInvestopedia]
    simp only [List.length_map, List.length_take]
    omega
  · intro d hd
    have hd' := (List.filter_sublist _).subset hd
    rw [List.mem_map] at hd'
    obtain ⟨hit, -, rfl⟩ := hd'
    cases hfind : lookupInvesting db.investingCom hit.id with
    | none =>
      have hempty : as_dict_investing db.investingCom hit = emptyPyDoc := by
        rw [as_dict_investing, hfind]
      rw [hempty] at hd
      exact absurd hd (not_mem_kw_filter_empty _ _)
    | some row =>
      refine ⟨row, List.mem_of_find?_eq_some hfind, hit.similarity, ?_⟩
      rw [as_dict_investing, hfind]
  · intro d hd
    have hd' := (List.filter_sublist _).subset hd
    rw [List.mem_map] at hd'
    obtain ⟨hit, -, rfl⟩ := hd'
    cases hfind : lookupInvestopedia db.investopedia hit.id with
    | none =>
      have hempty : as_dict_investopedia db.investopedia hit = emptyPyDoc := by
        rw [as_dict_investopedia, hfind]
      rw [hempty] at hd
      exact absurd hd (not_mem_kw_filter_empty _ _)
    | some row =>
      refine ⟨row, List.mem_of_find?_eq_some hfind, hit.similarity, ?_⟩
      rw [as_dict_investopedia, hfind]

/-- Witness for C8's amended statement: over a store holding one matching
Investing.com record, the single retrieved document indeed hydrates from
that collection. -/
theorem retrieval_two_groups_amended_witness :
    ∃ row ∈ exInvestingStore.investingCom, ∃ sim : ℚ,
      investingDocOf exInvestingRow 1 = investingDocOf row sim :=
  (retrieval_two_groups_amended exEmbed exCosine exInvestingStore
    (initState "Tesla stock") [] []).2.2.2.1 (investingDocOf exInvestingRow 1)
    (by decide)

/-! ## C3: the source list mirrors exactly the cited in-range positions -/

theorem takeWhile_append_sep {p : Char → Bool} (ds : List Char) (x : Char)
    (t : List Char) (hds : ∀ c ∈ ds, p c = true) (hx : p x = false) :
    (ds ++ x :: t).takeWhile p = ds ∧ (ds ++ x :: t).dropWhile p = x :: t := by
  induction ds with
  | nil => simp [List.takeWhile_cons, List.dropWhile_cons, hx]
  | cons d ds ih =>
    have hd : p d = true := hds d (by simp)
    have hrest := ih (fun c hc => hds c (by simp [hc]))
    simp [List.cons_append, List.takeWhile_cons, List.dropWhile_cons, hd,
      hrest.1, hrest.2]

theorem citedIn_nil (n : Nat) : ¬ CitedIn [] n := by
  rintro ⟨l₁, ds, l₂, h, -, -, -⟩
  cases l₁ <;> simp at h

theorem citedIn_cons (c : Char) (cs : List Char) (n : Nat) :
    CitedIn (c :: cs) n ↔
      (c = '[' ∧ ∃ ds l₂, cs = ds ++ ']' :: l₂ ∧ ds ≠ [] ∧
        (∀ x ∈ ds, x.isDigit = true) ∧ digitsVal ds = n)
      ∨ CitedIn cs n := by
  constructor
  · rintro ⟨l₁, ds, l₂, h, hne, hdig, hval⟩
    cases l₁ with
    | nil =>
      left
      rw [List.nil_append, List.cons.injEq] at h
      exact ⟨h.1, ds, l₂, h.2, hne, hdig, hval⟩
    | cons a l₁ =>
      right
      rw [List.cons_append, List.cons.injEq] at h
      exact ⟨l₁, ds, l₂, h.2, hne, hdig, hval⟩
  · rintro (⟨hc, ds, l₂, hcs, hne, hdig, hval⟩ | ⟨l₁, ds, l₂, h, hne, hdig, hval⟩)
    · exact ⟨[], ds, l₂, by rw [List.nil_append, hc, hcs], hne, hdig, hval⟩
    · exact ⟨c :: l₁, ds, l₂, by rw [List.cons_append, h], hne, hdig, hval⟩

/-- The scan `findCitations` finds a number exactly when it occurs
literally as a bracketed digit run: the refinement between the code's
regex scan and the spec-side notion of citedness. -/
theorem mem_findCitations (s : List Char) (n : Nat) :
    n ∈ findCitations s ↔ CitedIn s n := by
  induction s with
  | nil =>
    simp only [findCitations, List.not_mem_nil, false_iff]
    exact citedIn_nil n
  | cons c cs ih =>
    rw [findCitations, List.mem_append, ih, citedIn_cons]
    refine or_congr ?_ Iff.rfl
    constructor
    · intro hmem
      split at hmem
      case isTrue hP =>
        obtain ⟨hc, hne, hhead⟩ := hP
        rw [List.mem_singleton] at hmem
        cases hdw : cs.dropWhile Char.isDigit with
        | nil => rw [hdw] at hhead; simp at hhead
        | cons x xs =>
          rw [hdw] at hhead
          simp only [List.head?_cons, Option.some.injEq] at hhead
          refine ⟨hc, cs.takeWhile Char.isDigit, xs, ?_, hne, ?_, hmem.symm⟩
          · conv_lhs => rw [← List.takeWhile_append_dropWhile Char.isDigit cs]
            rw [hdw, hhead]
          · intro x hx
            exact List.mem_takeWhile_imp hx
      case isFalse => simp at hmem
    · rintro ⟨hc, ds, l₂, hcs, hne, hdig, hval⟩
      have hsep := takeWhile_append_sep ds ']' l₂ hdig (by decide)
      rw [if_pos ?_]
      · rw [List.mem_singleton, hcs, hsep.1, hval]
      · refine ⟨hc, ?_, ?_⟩
        · rw [hcs, hsep.1]; exact hne
        · rw [hcs, hsep.2]; rfl

instance (s : List Char) (n : Nat) : Decidable (CitedIn s n) :=
  decidable_of_iff _ (mem_findCitations s n)

theorem filterMap_ite {α β : Type} (p : α → Prop) [DecidablePred p]
    (f : α → β) (l : List α) :
    l.filterMap (fun a => if p a then some (f a) else none)
      = (l.filter (fun a => decide (p a))).map f := by
  induction l with
  | nil => rfl
  | cons a t ih => by_cases h : p a <;> simp [h, ih]

/-- C3: the final source list contains exactly the entries of
`source_docs ++ terms_data` whose 1-based position occurs literally as a
bracketed number in the generated answer, in concatenation order, each
rendered as `[n] title-or-term (url)`; cited in-range positions are never
omitted and uncited ones never included. -/
theorem citation_source_list_consistency (source_docs terms_data : List PyDoc)
    (final_answer : String) :
    numberedSources source_docs terms_data final_answer
      = (((source_docs ++ terms_data).enumFrom 1).filter
          (fun p => decide (CitedIn final_answer.data p.1))).map
          (fun p => renderSource p.1 p.2) := by
  rw [numberedSources,
    filterMap_ite (fun p : Nat × PyDoc => p.1 ∈ findCitations final_answer.data)
      (fun p => renderSource p.1 p.2)]
  congr 1
  apply List.filter_congr
  intro p _
  rw [decide_eq_decide]
  exact mem_findCitations final_answer.data p.1

/-! ## C1: block numbering versus concatenated numbering -/

/-- C1: with `source_docs = [exNewsDoc]` (so n = 1) and
`terms_data = [exTermDoc]`, the claim says the first `terms_data`
document is labelled "[2]" in its formatted block.  The code formats each
block with `enumerate(docs, 1)`, so the terms block labels it "[1]",
while the source list built for an answer citing "[2]" attributes
position 2 (the concatenated position) to that same document: the
formatted label differs from the concatenation position the source list
uses. -/
theorem terms_block_numbering_restarts_at_one :
    formatDocs [exTermDoc] = "[1] Stock\nSource: Source?  Date: \nownership\n"
    ∧ numberedSources [exNewsDoc] [exTermDoc] "answer [2]"
        = ["[2] Stock (http://e.com/s)"]
    ∧ formatDocs [exNewsDoc] = "[1] Doc One\nSource: Investing.com  Date: 2024-01-01\nalpha\n" := by
  refine ⟨rfl, ?_, rfl⟩
  decide

end FiNN

